import Mathlib

set_option maxRecDepth 8000

/-!
Verification of the real-estate deal evaluator's calculation library and
HTTP evaluation pipeline.  Python floats are modelled as exact rationals
(the claims under consideration are algebraic, not about rounding);
the IEEE special values that the code manipulates explicitly
(float inf from dscr_calculation, float nan from the IRR root-finder)
are modelled by the inductive type PyFloat below.
-/

namespace RealEstate

/-- Model of the Python float values that flow through the evaluator's
DSCR / IRR plumbing: an ordinary (finite) value, positive infinity
(produced by dscr_calculation when debt service is zero), or nan
(produced by the IRR root-finder when no root exists). -/
inductive PyFloat where
  | nan : PyFloat
  | inf : PyFloat
  | val (q : ℚ) : PyFloat
deriving Repr, DecidableEq

/-- Python comparison d >= q for a PyFloat d against a finite rational q:
infinity dominates every finite value and every comparison with nan is false. -/
def PyFloat.geB : PyFloat → ℚ → Bool
  | .nan, _ => false
  | .inf, _ => true
  | .val v, q => decide (q ≤ v)

/-- Python's nan-detection idiom x != x: true exactly on nan. -/
def PyFloat.selfNe : PyFloat → Bool
  | .nan => true
  | .inf => false
  | .val _ => false

/- ### backend/calculations/financial.py -/

/-- Embeds gross_monthly_income: GMI = monthly rent + other income. -/
def gross_monthly_income (monthly_rent : ℚ) (other_income : ℚ := 0) : ℚ :=
  monthly_rent + other_income

/-- Embeds vacancy_credit_loss: VCL = GMI x vacancy rate. -/
def vacancy_credit_loss (gmi vacancy_rate : ℚ) : ℚ :=
  gmi * vacancy_rate

/-- Embeds noi_calculation: NOI = (GMI - VCL) x 12 - annual OE. -/
def noi_calculation (gmi vcl annual_operating_expenses : ℚ) : ℚ :=
  (gmi - vcl) * 12 - annual_operating_expenses

/-- Embeds annual_debt_service: ADS = 12 x monthly payment. -/
def annual_debt_service (monthly_mortgage_payment : ℚ) : ℚ :=
  monthly_mortgage_payment * 12

/-- Embeds dscr_calculation: NOI / ADS, with the zero-debt-service cases
returning float inf (NOI positive) or 0.0 (otherwise). -/
def dscr_calculation (noi ads : ℚ) : PyFloat :=
  if ads = 0 then (if 0 < noi then .inf else .val 0)
  else .val (noi / ads)

/-- Embeds cap_rate: NOI / price, 0 when the price is 0. -/
def cap_rate (noi purchase_price : ℚ) : ℚ :=
  if purchase_price = 0 then 0 else noi / purchase_price

/-- Embeds cash_on_cash: annual pre-tax cash flow / initial cash, 0 when
nothing was invested. -/
def cash_on_cash (annual_pre_tax_cash_flow initial_cash_invested : ℚ) : ℚ :=
  if initial_cash_invested = 0 then 0
  else annual_pre_tax_cash_flow / initial_cash_invested

/-- Embeds ltv_ratio: loan / price, 0 when the price is 0. -/
def ltv_ratio (loan_amount purchase_price : ℚ) : ℚ :=
  if purchase_price = 0 then 0 else loan_amount / purchase_price

/-- Embeds total_monthly_cost: principal + interest + monthly OE - tax benefit. -/
def total_monthly_cost (principal_payment interest_payment
    monthly_operating_expenses : ℚ) (monthly_tax_benefit : ℚ := 0) : ℚ :=
  principal_payment + interest_payment + monthly_operating_expenses - monthly_tax_benefit

/- ### backend/calculations/valuation.py -/

/-- Embeds price_verdict: classify the asking price per square metre
against the now-cast value per square metre. -/
def price_verdict (property_price_per_m2 nowcast_value_per_m2 : ℚ) : String :=
  if nowcast_value_per_m2 = 0 then "Unknown"
  else
    let ratio := property_price_per_m2 / nowcast_value_per_m2
    if ratio < 0.95 then "Under-priced"
    else if ratio ≤ 1.05 then "Average"
    else "Overpriced"

/-- Embeds the dpe_penalties dictionary of listing_delta_calculation. -/
def dpe_penalties : List (String × ℚ) :=
  [("A", 0.05), ("B", 0.02), ("C", 0.0), ("D", -0.02),
   ("E", -0.05), ("F", -0.10), ("G", -0.15)]

/-- Embeds listing_delta_calculation: price-cut percentage, then the
days-on-market branch (the source tests > 1.5 x median first and only
in the elif tests > 2 x median), then the DPE table value, then the
condition penalty. -/
def listing_delta_calculation (price_cut_pct : ℚ) (days_on_market : ℤ)
    (median_dom : ℤ) (dpe_grade : String) (condition_penalty : ℚ) : ℚ :=
  let delta : ℚ := 0
  let delta := delta + price_cut_pct
  let delta :=
    if (median_dom : ℚ) * 1.5 < (days_on_market : ℚ) then delta + (-0.05)
    else if (median_dom : ℚ) * 2 < (days_on_market : ℚ) then delta + (-0.10)
    else delta
  let delta := delta + ((dpe_penalties.lookup dpe_grade.toUpper).getD 0)
  delta + condition_penalty

/- ### backend/calculations/taxes.py -/

/-- Result record returned by regime_reel_tax. -/
structure RegimeReelResult where
  taxable_income : ℚ
  income_tax : ℚ
  social_charges : ℚ
  total_tax : ℚ
  deficit : ℚ
deriving Repr, DecidableEq

/-- Embeds regime_reel_tax: taxable = gross - deductible - interest, tax
components clamped at zero, deficit reported as min 0 taxable. -/
def regime_reel_tax (gross_annual_rent deductible_expenses interest_payments : ℚ)
    (marginal_rate : ℚ := 0.30) (social_charges_rate : ℚ := 0.172) :
    RegimeReelResult :=
  let taxable_income := gross_annual_rent - deductible_expenses - interest_payments
  let income_tax := max 0 (taxable_income * marginal_rate)
  let social_charges := max 0 (taxable_income * social_charges_rate)
  { taxable_income := taxable_income
    income_tax := income_tax
    social_charges := social_charges
    total_tax := income_tax + social_charges
    deficit := min 0 taxable_income }

/- ### backend/calculations/mortgage.py -/

/-- Entry of the amortization schedule (one dictionary of the Python list). -/
structure AmortEntry where
  payment_number : ℤ
  payment : ℚ
  principal_payment : ℚ
  interest_payment : ℚ
  remaining_balance : ℚ
deriving Repr, DecidableEq

/-- Embeds monthly_payment: the standard amortizing-loan payment
M = P x (i / (1 - (1 + i) ^ (-n))), 0 for non-positive principal or term,
straight-line for a zero rate. -/
def monthly_payment (principal annual_rate : ℚ) (years : ℤ) : ℚ :=
  if principal ≤ 0 ∨ years ≤ 0 then 0
  else if annual_rate = 0 then principal / ((years : ℚ) * 12)
  else
    let monthly_rate := annual_rate / 12
    let num_payments : ℤ := years * 12
    principal * (monthly_rate / (1 - (1 + monthly_rate) ^ (-num_payments)))

/-- Loop body of amortization_schedule: from a running balance and the month
counter, emit the remaining months.  The reported remaining_balance is
clamped at 0 exactly as in the source (max(0, remaining_balance)). -/
def amortAux (payment monthly_rate : ℚ) : ℚ → ℤ → ℕ → List AmortEntry
  | _, _, 0 => []
  | bal, month, m + 1 =>
    let interest_payment := bal * monthly_rate
    let principal_payment := payment - interest_payment
    let remaining_balance := bal - principal_payment
    { payment_number := month
      payment := payment
      principal_payment := principal_payment
      interest_payment := interest_payment
      remaining_balance := max 0 remaining_balance }
      :: amortAux payment monthly_rate remaining_balance (month + 1) m

/-- Embeds amortization_schedule: empty for non-positive principal or term,
otherwise one entry per month 1..years*12 produced by the running-balance
loop amortAux. -/
def amortization_schedule (principal annual_rate : ℚ) (years : ℤ) : List AmortEntry :=
  if principal ≤ 0 ∨ years ≤ 0 then []
  else
    amortAux (monthly_payment principal annual_rate years) (annual_rate / 12)
      principal 1 (years * 12).toNat

/- ### backend/calculations/cashflow.py -/

/-- Breakdown returned by calculate_french_purchase_costs. -/
structure PurchaseCostBreakdown where
  registration_duties : ℚ
  notaire_fees : ℚ
  disbursements : ℚ
  mortgage_fees : ℚ
  total : ℚ
deriving Repr, DecidableEq

/-- Embeds calculate_french_purchase_costs: registration duties at 5.80%,
the four-bracket notaire fee scale, 0.4% disbursements, and 0.4% mortgage
fees when a mortgage is taken. -/
def calculate_french_purchase_costs (purchase_price : ℚ) (has_mortgage : Bool := true) :
    PurchaseCostBreakdown :=
  let registration_duties := purchase_price * 0.0580
  let notaire_fees :=
    if purchase_price ≤ 6500 then purchase_price * 0.03945
    else if purchase_price ≤ 17000 then
      6500 * 0.03945 + (purchase_price - 6500) * 0.01627
    else if purchase_price ≤ 60000 then
      6500 * 0.03945 + (17000 - 6500) * 0.01627 + (purchase_price - 17000) * 0.01085
    else
      6500 * 0.03945 + (17000 - 6500) * 0.01627 + (60000 - 17000) * 0.01085 +
        (purchase_price - 60000) * 0.00814
  let disbursements := purchase_price * 0.004
  let mortgage_fees := if has_mortgage then purchase_price * 0.004 else 0
  { registration_duties := registration_duties
    notaire_fees := notaire_fees
    disbursements := disbursements
    mortgage_fees := mortgage_fees
    total := registration_duties + notaire_fees + disbursements + mortgage_fees }

/-- One year of the cash-flow projection series (the CashFlowProjection
dataclass of the source). -/
structure CashFlowProjection where
  year : ℕ
  rental_income : ℚ
  vacancy_loss : ℚ
  effective_rental_income : ℚ
  operating_expenses : ℚ
  mortgage_payment : ℚ
  noi : ℚ
  cash_flow : ℚ
  cumulative_cash_flow : ℚ
  property_value : ℚ
  equity : ℚ
  remaining_loan_balance : ℚ
deriving Repr, DecidableEq

/-- One iteration of the operating-year loop of
calculate_cash_flow_projection: the entry for the given year, from the
previous cumulative cash flow and property value, reading the loan balance
from the amortization schedule at index year*12-1 (balance 0 and no
mortgage payment once past the end of the schedule). -/
def cashFlowYearEntry (monthly_rent monthly_operating_expenses
    monthly_mortgage_payment : ℚ) (loan_amortization_schedule : List AmortEntry)
    (appreciation_rate vacancy_rate : ℚ) (year : ℕ)
    (cumulative_cf prev_property_value : ℚ) : CashFlowProjection :=
  let annual_rent := monthly_rent * 12
  let annual_vacancy_loss := annual_rent * vacancy_rate
  let effective_annual_rent := annual_rent - annual_vacancy_loss
  let annual_opex := monthly_operating_expenses * 12
  let month_index := year * 12 - 1
  let remaining_balance :=
    match loan_amortization_schedule.get? month_index with
    | some entry => entry.remaining_balance
    | none => 0
  let annual_mortgage :=
    match loan_amortization_schedule.get? month_index with
    | some _ => monthly_mortgage_payment * 12
    | none => 0
  let noi := effective_annual_rent - annual_opex
  let cash_flow := noi - annual_mortgage
  let current_property_value := prev_property_value * (1 + appreciation_rate)
  { year := year
    rental_income := annual_rent
    vacancy_loss := annual_vacancy_loss
    effective_rental_income := effective_annual_rent
    operating_expenses := annual_opex
    mortgage_payment := annual_mortgage
    noi := noi
    cash_flow := cash_flow
    cumulative_cash_flow := cumulative_cf + cash_flow
    property_value := current_property_value
    equity := current_property_value - remaining_balance
    remaining_loan_balance := remaining_balance }

/-- Operating-year loop of calculate_cash_flow_projection: builds the
entries for years year, year+1, ..., each successive iteration carrying
forward the cumulative cash flow and appreciated property value of the
entry just emitted. -/
def cashFlowYears (monthly_rent monthly_operating_expenses monthly_mortgage_payment : ℚ)
    (loan_amortization_schedule : List AmortEntry) (appreciation_rate vacancy_rate : ℚ) :
    ℕ → ℕ → ℚ → ℚ → List CashFlowProjection
  | _, 0, _, _ => []
  | year, n + 1, cumulative_cf, prev_property_value =>
    let entry := cashFlowYearEntry monthly_rent monthly_operating_expenses
      monthly_mortgage_payment loan_amortization_schedule appreciation_rate
      vacancy_rate year cumulative_cf prev_property_value
    entry :: cashFlowYears monthly_rent monthly_operating_expenses
      monthly_mortgage_payment loan_amortization_schedule appreciation_rate
      vacancy_rate (year + 1) n entry.cumulative_cash_flow entry.property_value

/-- Embeds calculate_cash_flow_projection: the year-0 purchase entry
(negative total cash outlay, initial equity net of the opening loan
balance) followed by the operating years 1..years. -/
def calculate_cash_flow_projection (initial_property_value monthly_rent
    monthly_operating_expenses monthly_mortgage_payment : ℚ)
    (loan_amortization_schedule : List AmortEntry) (appreciation_rate : ℚ)
    (vacancy_rate : ℚ := 0.05) (years : ℕ := 10) (down_payment : ℚ := 0)
    (renovation_costs : ℚ := 0) (purchase_fees : ℚ := 0) : List CashFlowProjection :=
  let year_0_cash_out := -(down_payment + renovation_costs + purchase_fees)
  let initial_loan_balance :=
    match loan_amortization_schedule.head? with
    | some entry => entry.remaining_balance
    | none => 0
  let initial_equity := initial_property_value - initial_loan_balance
  let year_0 : CashFlowProjection :=
    { year := 0
      rental_income := 0
      vacancy_loss := 0
      effective_rental_income := 0
      operating_expenses := 0
      mortgage_payment := 0
      noi := 0
      cash_flow := year_0_cash_out
      cumulative_cash_flow := year_0_cash_out
      property_value := initial_property_value
      equity := initial_equity
      remaining_loan_balance := initial_loan_balance }
  year_0 :: cashFlowYears monthly_rent monthly_operating_expenses monthly_mortgage_payment
      loan_amortization_schedule appreciation_rate vacancy_rate
      1 years year_0_cash_out initial_property_value

/-- Summary returned by calculate_total_return_with_sale. -/
structure SaleReturnSummary where
  final_property_value : ℚ
  selling_costs : ℚ
  remaining_loan_balance : ℚ
  net_sale_proceeds : ℚ
  total_cash_flows : ℚ
  total_return : ℚ
  total_return_on_equity : ℚ
deriving Repr, DecidableEq

/-- Embeds calculate_total_return_with_sale: sale of the final projection's
property value at the given selling-costs rate, net of the remaining loan
balance; an all-zero summary on an empty projection list. -/
def calculate_total_return_with_sale (projections : List CashFlowProjection)
    (initial_equity : ℚ) (selling_costs_rate : ℚ := 0.08) : SaleReturnSummary :=
  match projections.getLast? with
  | none =>
    { final_property_value := 0, selling_costs := 0, remaining_loan_balance := 0
      net_sale_proceeds := 0, total_cash_flows := 0, total_return := 0
      total_return_on_equity := 0 }
  | some final_projection =>
    let final_value := final_projection.property_value
    let selling_costs := final_value * selling_costs_rate
    let remaining_balance := final_projection.remaining_loan_balance
    let net_proceeds := final_value - selling_costs - remaining_balance
    let total_cfs := (projections.map (fun p => p.cash_flow)).sum
    let total_return := total_cfs + net_proceeds
    { final_property_value := final_value
      selling_costs := selling_costs
      remaining_loan_balance := remaining_balance
      net_sale_proceeds := net_proceeds
      total_cash_flows := total_cfs
      total_return := total_return
      total_return_on_equity :=
        if 0 < initial_equity then total_return / initial_equity else 0 }

/- ### backend/calculations/strategy_fit.py -/

/-- Python float negative infinity is also needed once normalize_score is fed
the extended values that dscr_calculation can produce, so the strategy-fit
embedding extends PyFloat by a handful of total operations.  Subtraction of a
finite rational. -/
def PyFloat.subQ : PyFloat → ℚ → PyFloat
  | .nan, _ => .nan
  | .inf, _ => .inf
  | .val v, q => .val (v - q)

/-- Python float comparison x < q against a finite rational: false on nan. -/
def PyFloat.ltQ : PyFloat → ℚ → Bool
  | .nan, _ => false
  | .inf, _ => false
  | .val v, q => decide (v < q)

/-- Python float comparison x > q against a finite rational: false on nan. -/
def PyFloat.gtQ : PyFloat → ℚ → Bool
  | .nan, _ => false
  | .inf, _ => true
  | .val v, q => decide (q < v)

/-- Scaling x / d * s by a finite positive divisor d and positive scale s
(every normalize_score call divides by max minus min inside the branch where
that difference is nonzero, and the call sites use min < max; a zero divisor
cannot occur there and is mapped to nan). -/
def PyFloat.divMul : PyFloat → ℚ → ℚ → PyFloat
  | _, 0, _ => .nan
  | .nan, _, _ => .nan
  | .inf, d, s => if 0 < d * s then .inf else .nan
  | .val v, d, s => .val (v / d * s)

/-- Finite value of a PyFloat, 0 on the non-finite constructors (used only
after clamping between finite bounds, where the value is always finite). -/
def PyFloat.toQ : PyFloat → ℚ
  | .val v => v
  | _ => 0

/-- Python min(a, x) for finite a: keeps a unless x compares strictly below it
(in particular min(a, nan) = a and min(a, inf) = a). -/
def PyFloat.pymin (a : ℚ) (x : PyFloat) : PyFloat :=
  if x.ltQ a then x else .val a

/-- Python max(a, x) for finite a: keeps a unless x compares strictly above it
(in particular max(a, nan) = a). -/
def PyFloat.pymax (a : ℚ) (x : PyFloat) : PyFloat :=
  if x.gtQ a then x else .val a

/-- Embeds normalize_score: map value linearly from [min_val, max_val] to
[0, 100] and clamp, returning 50 when the interval is degenerate.  The value
argument is a PyFloat because the DSCR fed to the strategy-fit functions can
be the float infinity produced by dscr_calculation; on finite input this is
exactly max(0, min(100, (value - min) / (max - min) * 100)). -/
def normalize_score (value : PyFloat) (min_val max_val : ℚ) : ℚ :=
  if max_val = min_val then 50
  else
    let normalized := (value.subQ min_val).divMul (max_val - min_val) 100
    (PyFloat.pymax 0 (PyFloat.pymin 100 normalized)).toQ

/-- Strategy-fit record: strategy name and 0-100 score.  The purely
informational reasons / pros / cons string lists of the source dataclass do
not influence the score, the count or the ordering and are omitted from the
embedding. -/
structure StrategyFit where
  strategy : String
  score : ℚ
deriving Repr, DecidableEq

/-- Embeds the score computation of calculate_owner_occupier_fit:
0.6 x cost score + 0.4 x discount score. -/
def calculate_owner_occupier_fit (tmc market_rent : ℚ) (dscr : PyFloat)
    (price_discount_pct : ℚ) (legal_rent_compliant : Bool) : StrategyFit :=
  let net_cost_vs_rent := tmc - market_rent
  let cost_score := normalize_score (.val (-net_cost_vs_rent)) (-1000) 1000
  let discount_score := normalize_score (.val (-price_discount_pct)) (-0.20) 0.05
  { strategy := "Owner-occupier", score := cost_score * 0.6 + discount_score * 0.4 }

/-- Embeds the score computation of calculate_location_nue_fit:
equal-weighted DSCR and IRR scores, times 0.7 when the rent is
non-compliant. -/
def calculate_location_nue_fit (dscr : PyFloat) (irr : ℚ)
    (legal_rent_compliant : Bool) (bedrooms : ℤ) : StrategyFit :=
  let dscr_score := normalize_score dscr 0.8 1.5
  let irr_score := normalize_score (.val irr) 0.02 0.12
  let score := dscr_score * 0.5 + irr_score * 0.5
  let score := if ¬legal_rent_compliant then score * 0.7 else score
  { strategy := "Location nue (unfurnished)", score := score }

/-- Embeds the score computation of calculate_lmnp_fit: equal-weighted DSCR
and IRR scores (IRR normalized over 0.03-0.15), times 0.7 when
non-compliant. -/
def calculate_lmnp_fit (dscr : PyFloat) (irr : ℚ)
    (legal_rent_compliant : Bool) (bedrooms : ℤ) : StrategyFit :=
  let dscr_score := normalize_score dscr 0.8 1.5
  let irr_score := normalize_score (.val irr) 0.03 0.15
  let score := dscr_score * 0.5 + irr_score * 0.5
  let score := if ¬legal_rent_compliant then score * 0.7 else score
  { strategy := "LMNP (furnished, micro-BIC)", score := score }

/-- Embeds the score computation of calculate_colocation_fit: 0.4 DSCR +
0.4 IRR + 0.2 bedrooms scores, times 0.3 when there are fewer than two
bedrooms. -/
def calculate_colocation_fit (dscr : PyFloat) (irr : ℚ) (bedrooms : ℤ)
    (legal_rent_compliant : Bool) : StrategyFit :=
  let dscr_score := normalize_score dscr 0.8 1.8
  let irr_score := normalize_score (.val irr) 0.05 0.20
  let bedrooms_score := normalize_score (.val (bedrooms : ℚ)) 1 5
  let score := dscr_score * 0.4 + irr_score * 0.4 + bedrooms_score * 0.2
  let score := if bedrooms < 2 then score * 0.3 else score
  { strategy := "Colocation", score := score }

/-- Embeds the score computation of calculate_value_add_fit: 0.4 discount +
0.3 IRR + 0.3 DPE scores, the DPE score being 100 for grades E, F, G and 50
otherwise. -/
def calculate_value_add_fit (dscr : PyFloat) (irr : ℚ)
    (price_discount_pct : ℚ) (dpe_grade : String) : StrategyFit :=
  let discount_score := normalize_score (.val (-price_discount_pct)) (-0.30) 0.0
  let irr_score := normalize_score (.val irr) 0.08 0.25
  let dpe_score : ℚ := if dpe_grade ∈ ["E", "F", "G"] then 100 else 50
  { strategy := "Value-Add / déficit foncier"
    score := discount_score * 0.4 + irr_score * 0.3 + dpe_score * 0.3 }

/-- Descending-score order used to model Python's
sorted(..., key score, reverse) on strategy fits. -/
def scoreGE (a b : StrategyFit) : Prop := b.score ≤ a.score

instance : DecidableRel scoreGE := fun a b =>
  inferInstanceAs (Decidable (b.score ≤ a.score))

instance : IsTotal StrategyFit scoreGE := ⟨fun a b => le_total b.score a.score⟩

instance : IsTrans StrategyFit scoreGE := ⟨fun _ _ _ h1 h2 => le_trans h2 h1⟩

/-- Embeds calculate_all_strategy_fits: the five profile scores, sorted by
score in descending order (a stable sort, as Python's sorted). -/
def calculate_all_strategy_fits (tmc market_rent : ℚ) (dscr : PyFloat) (irr : ℚ)
    (price_discount_pct : ℚ) (legal_rent_compliant : Bool) (bedrooms : ℤ)
    (dpe_grade : String) : List StrategyFit :=
  List.insertionSort scoreGE
    [calculate_owner_occupier_fit tmc market_rent dscr price_discount_pct legal_rent_compliant,
     calculate_location_nue_fit dscr irr legal_rent_compliant bedrooms,
     calculate_lmnp_fit dscr irr legal_rent_compliant bedrooms,
     calculate_colocation_fit dscr irr bedrooms legal_rent_compliant,
     calculate_value_add_fit dscr irr price_discount_pct dpe_grade]

/- ### backend/data/rent_control.py -/

/-- Embeds the PARIS_RENT_CONTROL table: postal code to
(min, max, median) rent per square metre for the 20 arrondissements. -/
def PARIS_RENT_CONTROL : List (String × ℚ × ℚ × ℚ) :=
  [("75001", (25.0, 35.2, 30.1)),
   ("75002", (24.5, 34.8, 29.7)),
   ("75003", (26.0, 36.5, 31.3)),
   ("75004", (27.0, 37.8, 32.4)),
   ("75005", (26.5, 37.2, 31.9)),
   ("75006", (28.0, 39.2, 33.6)),
   ("75007", (27.5, 38.5, 33.0)),
   ("75008", (27.0, 37.8, 32.4)),
   ("75009", (25.5, 35.7, 30.6)),
   ("75010", (24.0, 33.6, 28.8)),
   ("75011", (25.0, 35.0, 30.0)),
   ("75012", (24.5, 34.3, 29.4)),
   ("75013", (23.5, 32.9, 28.2)),
   ("75014", (24.0, 33.6, 28.8)),
   ("75015", (24.5, 34.3, 29.4)),
   ("75016", (26.0, 36.4, 31.2)),
   ("75017", (25.0, 35.0, 30.0)),
   ("75018", (22.0, 30.8, 26.4)),
   ("75019", (22.5, 31.5, 27.0)),
   ("75020", (23.0, 32.2, 27.6))]

/-- Embeds the OTHER_CITIES_RENT_CONTROL table (other rent-controlled
zones tendues). -/
def OTHER_CITIES_RENT_CONTROL : List (String × ℚ × ℚ × ℚ) :=
  [("69001", (14.0, 19.6, 16.8)), ("69002", (15.0, 21.0, 18.0)),
   ("69003", (13.0, 18.2, 15.6)), ("69004", (14.5, 20.3, 17.4)),
   ("69005", (13.5, 18.9, 16.2)), ("69006", (15.5, 21.7, 18.6)),
   ("69007", (14.0, 19.6, 16.8)), ("69008", (13.0, 18.2, 15.6)),
   ("69009", (14.0, 19.6, 16.8)),
   ("13001", (11.0, 15.4, 13.2)), ("13002", (10.5, 14.7, 12.6)),
   ("13003", (10.0, 14.0, 12.0)), ("13004", (10.5, 14.7, 12.6)),
   ("13005", (11.5, 16.1, 13.8)), ("13006", (12.0, 16.8, 14.4)),
   ("13007", (10.0, 14.0, 12.0)), ("13008", (11.5, 16.1, 13.8)),
   ("13009", (10.5, 14.7, 12.6)), ("13010", (10.0, 14.0, 12.0)),
   ("33000", (12.5, 17.5, 15.0)), ("33100", (12.0, 16.8, 14.4)),
   ("33200", (11.5, 16.1, 13.8)), ("33300", (11.0, 15.4, 13.2)),
   ("33800", (12.5, 17.5, 15.0)),
   ("59000", (11.0, 15.4, 13.2)), ("59100", (10.0, 14.0, 12.0)),
   ("59200", (10.0, 14.0, 12.0)), ("59800", (10.5, 14.7, 12.6)),
   ("34000", (12.0, 16.8, 14.4)), ("34070", (11.5, 16.1, 13.8)),
   ("34080", (11.5, 16.1, 13.8)), ("34090", (11.5, 16.1, 13.8)),
   ("31000", (11.5, 16.1, 13.8)), ("31100", (11.0, 15.4, 13.2)),
   ("31200", (11.5, 16.1, 13.8)), ("31300", (11.0, 15.4, 13.2)),
   ("31400", (11.5, 16.1, 13.8)), ("31500", (11.0, 15.4, 13.2)),
   ("06000", (14.0, 19.6, 16.8)), ("06100", (13.5, 18.9, 16.2)),
   ("06200", (13.0, 18.2, 15.6)), ("06300", (13.5, 18.9, 16.2)),
   ("67000", (11.5, 16.1, 13.8)), ("67100", (11.0, 15.4, 13.2)),
   ("67200", (11.0, 15.4, 13.2)),
   ("44000", (11.5, 16.1, 13.8)), ("44100", (11.0, 15.4, 13.2)),
   ("44200", (11.0, 15.4, 13.2)), ("44300", (11.5, 16.1, 13.8)),
   ("35000", (11.5, 16.1, 13.8)), ("35200", (11.0, 15.4, 13.2)),
   ("35700", (11.0, 15.4, 13.2)),
   ("38000", (11.0, 15.4, 13.2)), ("38100", (10.5, 14.7, 12.6)),
   ("83000", (11.0, 15.4, 13.2)), ("83100", (10.5, 14.7, 12.6)),
   ("83200", (10.5, 14.7, 12.6)),
   ("49000", (10.5, 14.7, 12.6)), ("49100", (10.0, 14.0, 12.0))]

/-- Embeds the REGIONAL_RENT_ESTIMATES table: region name to typical
(min, max, median) rent per square metre. -/
def REGIONAL_RENT_ESTIMATES : List (String × ℚ × ℚ × ℚ) :=
  [("Île-de-France", (18.0, 28.0, 23.0)),
   ("Auvergne-Rhône-Alpes", (10.0, 16.0, 13.0)),
   ("Provence-Alpes-Côte d'Azur", (11.0, 17.0, 14.0)),
   ("Nouvelle-Aquitaine", (9.0, 14.0, 11.5)),
   ("Occitanie", (9.0, 14.0, 11.5)),
   ("Hauts-de-France", (8.0, 13.0, 10.5)),
   ("Normandie", (8.0, 13.0, 10.5)),
   ("Bretagne", (9.0, 14.0, 11.5)),
   ("Grand Est", (9.0, 14.0, 11.5)),
   ("Pays de la Loire", (9.0, 14.0, 11.5)),
   ("Bourgogne-Franche-Comté", (8.0, 13.0, 10.5)),
   ("Centre-Val de Loire", (8.0, 13.0, 10.5)),
   ("Corse", (10.0, 16.0, 13.0))]

/-- Embeds the DEPARTMENT_TO_REGION table. -/
def DEPARTMENT_TO_REGION : List (String × String) :=
  [("75", "Île-de-France"), ("77", "Île-de-France"), ("78", "Île-de-France"),
   ("91", "Île-de-France"), ("92", "Île-de-France"), ("93", "Île-de-France"),
   ("94", "Île-de-France"), ("95", "Île-de-France"),
   ("01", "Auvergne-Rhône-Alpes"), ("03", "Auvergne-Rhône-Alpes"),
   ("07", "Auvergne-Rhône-Alpes"), ("15", "Auvergne-Rhône-Alpes"),
   ("26", "Auvergne-Rhône-Alpes"), ("38", "Auvergne-Rhône-Alpes"),
   ("42", "Auvergne-Rhône-Alpes"), ("43", "Auvergne-Rhône-Alpes"),
   ("63", "Auvergne-Rhône-Alpes"), ("69", "Auvergne-Rhône-Alpes"),
   ("73", "Auvergne-Rhône-Alpes"), ("74", "Auvergne-Rhône-Alpes"),
   ("04", "Provence-Alpes-Côte d'Azur"), ("05", "Provence-Alpes-Côte d'Azur"),
   ("06", "Provence-Alpes-Côte d'Azur"), ("13", "Provence-Alpes-Côte d'Azur"),
   ("83", "Provence-Alpes-Côte d'Azur"), ("84", "Provence-Alpes-Côte d'Azur"),
   ("16", "Nouvelle-Aquitaine"), ("17", "Nouvelle-Aquitaine"),
   ("19", "Nouvelle-Aquitaine"), ("23", "Nouvelle-Aquitaine"),
   ("24", "Nouvelle-Aquitaine"), ("33", "Nouvelle-Aquitaine"),
   ("40", "Nouvelle-Aquitaine"), ("47", "Nouvelle-Aquitaine"),
   ("64", "Nouvelle-Aquitaine"), ("79", "Nouvelle-Aquitaine"),
   ("86", "Nouvelle-Aquitaine"), ("87", "Nouvelle-Aquitaine"),
   ("09", "Occitanie"), ("11", "Occitanie"), ("12", "Occitanie"),
   ("30", "Occitanie"), ("31", "Occitanie"), ("32", "Occitanie"),
   ("34", "Occitanie"), ("46", "Occitanie"), ("48", "Occitanie"),
   ("65", "Occitanie"), ("66", "Occitanie"), ("81", "Occitanie"),
   ("82", "Occitanie"),
   ("02", "Hauts-de-France"), ("59", "Hauts-de-France"),
   ("60", "Hauts-de-France"), ("62", "Hauts-de-France"),
   ("80", "Hauts-de-France"),
   ("14", "Normandie"), ("27", "Normandie"), ("50", "Normandie"),
   ("61", "Normandie"), ("76", "Normandie"),
   ("22", "Bretagne"), ("29", "Bretagne"), ("35", "Bretagne"),
   ("56", "Bretagne"),
   ("08", "Grand Est"), ("10", "Grand Est"), ("51", "Grand Est"),
   ("52", "Grand Est"), ("54", "Grand Est"), ("55", "Grand Est"),
   ("57", "Grand Est"), ("67", "Grand Est"), ("68", "Grand Est"),
   ("88", "Grand Est"),
   ("44", "Pays de la Loire"), ("49", "Pays de la Loire"),
   ("53", "Pays de la Loire"), ("72", "Pays de la Loire"),
   ("85", "Pays de la Loire"),
   ("21", "Bourgogne-Franche-Comté"), ("25", "Bourgogne-Franche-Comté"),
   ("39", "Bourgogne-Franche-Comté"), ("58", "Bourgogne-Franche-Comté"),
   ("70", "Bourgogne-Franche-Comté"), ("71", "Bourgogne-Franche-Comté"),
   ("89", "Bourgogne-Franche-Comté"), ("90", "Bourgogne-Franche-Comté"),
   ("18", "Centre-Val de Loire"), ("28", "Centre-Val de Loire"),
   ("36", "Centre-Val de Loire"), ("37", "Centre-Val de Loire"),
   ("41", "Centre-Val de Loire"), ("45", "Centre-Val de Loire"),
   ("20", "Corse"), ("2A", "Corse"), ("2B", "Corse")]

/-- Embeds NATIONAL_AVERAGE_RENT, the fallback band. -/
def NATIONAL_AVERAGE_RENT : ℚ × ℚ × ℚ := (9.0, 14.0, 11.5)

/-- Embeds get_rent_control_band: None unless the postal code has exactly
five characters, otherwise the Paris table first, then the other-cities
table. -/
def get_rent_control_band (postal_code : String) : Option (ℚ × ℚ × ℚ) :=
  if postal_code.length ≠ 5 then none
  else
    match PARIS_RENT_CONTROL.lookup postal_code with
    | some band => some band
    | none => OTHER_CITIES_RENT_CONTROL.lookup postal_code

/-- Embeds get_regional_rent_estimate: department extraction with the
overseas (97x) and Corsica (2A/2B) special cases, region lookup, and the
national-average fallback. -/
def get_regional_rent_estimate (postal_code : String) : Option (ℚ × ℚ × ℚ) :=
  if postal_code.length < 2 then none
  else
    let dept_code :=
      if postal_code.startsWith "97" ∧ postal_code.length = 5 then
        postal_code.take 3
      else if postal_code.startsWith "20" then
        let second_digit : Char :=
          if 2 < postal_code.length then postal_code.data.getD 2 '0' else '0'
        if second_digit ∈ ['0', '1', '2', '3', '4'] then "2A" else "2B"
      else postal_code.take 2
    match DEPARTMENT_TO_REGION.lookup dept_code with
    | some region =>
      match REGIONAL_RENT_ESTIMATES.lookup region with
      | some band => some band
      | none => some NATIONAL_AVERAGE_RENT
    | none => some NATIONAL_AVERAGE_RENT

/-- Result dictionary of check_rent_compliance. -/
structure RentComplianceResult where
  min_rent : ℚ
  max_rent : ℚ
  median_rent : ℚ
  property_rent_per_m2 : ℚ
  total_monthly_rent : ℚ
  surface : ℚ
  is_compliant : Bool
  compliance_percentage : ℚ
  verdict : String
  is_estimate : Bool
deriving Repr, DecidableEq

/-- Body of check_rent_compliance once a band has been resolved: the
compliance test, the band position scaled to 0-100 (50 on a degenerate
band), and the verdict string for the estimate and legal-control cases. -/
def rentComplianceFromBand (band : ℚ × ℚ × ℚ) (is_estimate : Bool)
    (monthly_rent surface : ℚ) : RentComplianceResult :=
  let (min_rent, max_rent, median_rent) := band
  let property_rent_per_m2 := monthly_rent / surface
  let is_compliant : Bool :=
    decide (min_rent ≤ property_rent_per_m2 ∧ property_rent_per_m2 ≤ max_rent)
  let compliance_percentage :=
    if min_rent < max_rent then
      (property_rent_per_m2 - min_rent) / (max_rent - min_rent) * 100
    else 50
  let verdict :=
    if is_estimate then
      if max_rent < property_rent_per_m2 then "Above typical market range"
      else if property_rent_per_m2 < min_rent then "Below typical market range"
      else if property_rent_per_m2 ≤ median_rent then "Within market range – Low"
      else "Within market range – High"
    else
      if ¬is_compliant then
        if max_rent < property_rent_per_m2 then "Non-conformant (exceeds maximum)"
        else "Non-conformant (below minimum)"
      else if property_rent_per_m2 ≤ median_rent then "Conformant – Low"
      else "Conformant – High"
  { min_rent := min_rent
    max_rent := max_rent
    median_rent := median_rent
    property_rent_per_m2 := property_rent_per_m2
    total_monthly_rent := monthly_rent
    surface := surface
    is_compliant := is_compliant
    compliance_percentage := compliance_percentage
    verdict := verdict
    is_estimate := is_estimate }

/-- Embeds check_rent_compliance: legal band first, regional estimate
second (flagged is_estimate), None when neither resolves. -/
def check_rent_compliance (postal_code : String) (monthly_rent surface : ℚ) :
    Option RentComplianceResult :=
  match get_rent_control_band postal_code with
  | some band => some (rentComplianceFromBand band false monthly_rent surface)
  | none =>
    match get_regional_rent_estimate postal_code with
    | some band => some (rentComplianceFromBand band true monthly_rent surface)
    | none => none

/- ### backend/calculations/irr_npv.py -/

/-- Embeds irr_calculation.  The numpy-financial root-finder npf.irr is a
third-party boundary (it either returns a finite root or the nan sentinel);
it is abstracted as the npfIrr argument, with none standing for nan.  The
wrapper itself returns the sentinel outright for fewer than two cash
flows. -/
def irr_calculation (npfIrr : List ℚ → Option ℚ) (cash_flows : List ℚ) : Option ℚ :=
  if cash_flows.length < 2 then none else npfIrr cash_flows

/- ### backend/api/routes/evaluate.py -/

/-- Fields of PropertyEvaluationRequest that feed the deterministic
evaluation pipeline (the free-text address only feeds the summary string
and is omitted). -/
structure EvalRequest where
  postal_code : String
  price : ℚ
  surface : ℚ
  rooms : ℤ
  bedrooms : ℤ
  dpe : Option String
  down_payment : ℚ
  loan_amount : ℚ
  annual_rate : ℚ
  loan_term : ℤ
  monthly_rent : ℚ
  projection_years : ℕ
  renovation_costs : ℚ

/-- Validation constraints that the pydantic schema enforces on
PropertyEvaluationRequest before the route body runs. -/
def EvalRequest.Valid (r : EvalRequest) : Prop :=
  0 < r.price ∧ 0 < r.surface ∧ 1 ≤ r.rooms ∧ 1 ≤ r.bedrooms ∧
  0 ≤ r.down_payment ∧ 0 ≤ r.loan_amount ∧
  0 ≤ r.annual_rate ∧ r.annual_rate ≤ 1 ∧
  1 ≤ r.loan_term ∧ r.loan_term ≤ 50 ∧ 0 < r.monthly_rent ∧
  1 ≤ r.projection_years ∧ r.projection_years ≤ 50 ∧ 0 ≤ r.renovation_costs

/-- Pipeline step: mortgage payment from the request's loan facts. -/
def pipeline_monthly_payment (req : EvalRequest) : ℚ :=
  monthly_payment req.loan_amount req.annual_rate req.loan_term

/-- Pipeline step: estimated monthly operating expenses, 25% of rent. -/
def pipeline_monthly_opex (req : EvalRequest) : ℚ :=
  req.monthly_rent * 0.25

/-- Pipeline step: NOI from GMI, a fixed 5% vacancy rate, and the
annualized operating-expense estimate. -/
def pipeline_noi (req : EvalRequest) : ℚ :=
  let gmi := gross_monthly_income req.monthly_rent
  let vcl := vacancy_credit_loss gmi 0.05
  noi_calculation gmi vcl (pipeline_monthly_opex req * 12)

/-- Pipeline step: annual debt service. -/
def pipeline_ads (req : EvalRequest) : ℚ :=
  annual_debt_service (pipeline_monthly_payment req)

/-- Pipeline step: the DSCR driving the verdict. -/
def pipeline_dscr (req : EvalRequest) : PyFloat :=
  dscr_calculation (pipeline_noi req) (pipeline_ads req)

/-- Pipeline step: cash-on-cash return on the down payment. -/
def pipeline_coc (req : EvalRequest) : ℚ :=
  cash_on_cash (pipeline_noi req - pipeline_ads req) req.down_payment

/-- Pipeline step: detailed purchase-cost breakdown (mortgage fees apply
when a loan is taken). -/
def pipeline_purchase_costs (req : EvalRequest) : PurchaseCostBreakdown :=
  calculate_french_purchase_costs req.price (decide (0 < req.loan_amount))

/-- Pipeline step: the cash-flow projection over the requested years,
on the renovation-inflated property value, at the appreciation rate that
the reference-data table returned for the postal code (passed as an
argument here). -/
def pipeline_projections (appreciation_rate : ℚ) (req : EvalRequest) :
    List CashFlowProjection :=
  calculate_cash_flow_projection (req.price + req.renovation_costs)
    req.monthly_rent (pipeline_monthly_opex req) (pipeline_monthly_payment req)
    (amortization_schedule req.loan_amount req.annual_rate req.loan_term)
    appreciation_rate 0.05 req.projection_years req.down_payment
    req.renovation_costs (pipeline_purchase_costs req).total

/-- Adds the net sale proceeds to the final cash flow, as the route's
cash_flows[-1] update does (the projection list is never empty: it always
holds the year-0 entry). -/
def addSaleToLast (v : ℚ) : List ℚ → List ℚ
  | [] => []
  | [x] => [x + v]
  | x :: xs => x :: addSaleToLast v xs

/-- Pipeline step: projection cash flows with the net sale proceeds added
to the final year. -/
def pipeline_cash_flows (appreciation_rate : ℚ) (req : EvalRequest) : List ℚ :=
  let projections := pipeline_projections appreciation_rate req
  let total_cash_required :=
    req.down_payment + req.renovation_costs + (pipeline_purchase_costs req).total
  let sale := calculate_total_return_with_sale projections total_cash_required 0.08
  addSaleToLast sale.net_sale_proceeds (projections.map (fun p => p.cash_flow))

/-- Pipeline step: IRR over those flows, substituting 0.8 x cash-on-cash
when the root-finder yields the nan sentinel (the estimated_irr !=
estimated_irr check of the route). -/
def pipeline_estimated_irr (npfIrr : List ℚ → Option ℚ) (appreciation_rate : ℚ)
    (req : EvalRequest) : ℚ :=
  match irr_calculation npfIrr (pipeline_cash_flows appreciation_rate req) with
  | none => pipeline_coc req * 0.8
  | some v => v

/-- Pipeline step: the DSCR-threshold verdict of the route
(>= 1.2 BUY, >= 1.0 CAUTION, else PASS). -/
def pipeline_verdict (req : EvalRequest) : String :=
  if (pipeline_dscr req).geB 1.2 then "BUY"
  else if (pipeline_dscr req).geB 1.0 then "CAUTION"
  else "PASS"

/-- Deterministic slice of the PropertyEvaluationResponse: the verdict,
the reported metrics the claims are about, the projection series, the top-3
strategy fits, and the rent-control band. -/
structure EvalResponse where
  verdict : String
  dscr : PyFloat
  irr : ℚ
  cash_on_cash : ℚ
  cash_flow_projections : List CashFlowProjection
  strategy_fits : List StrategyFit
  legal_rent_status : String
  rent_band : Option RentComplianceResult

/-- Embeds the deterministic pipeline of the POST /api/evaluate route.
External inputs are abstracted as arguments: npfIrr is the numpy-financial
root-finder (none = nan) and appreciation_rate is the value the
appreciation-rate reference table returned for the postal code.  The
DVF comparable-sales price verdict and the narrative strings do not feed
any of these fields and are not modelled. -/
def evaluate_property (npfIrr : List ℚ → Option ℚ) (appreciation_rate : ℚ)
    (req : EvalRequest) : EvalResponse :=
  let estimated_irr := pipeline_estimated_irr npfIrr appreciation_rate req
  let tmc := total_monthly_cost (pipeline_monthly_payment req) 200 100
  let fits := calculate_all_strategy_fits tmc req.monthly_rent (pipeline_dscr req)
    estimated_irr 0 true req.bedrooms (req.dpe.getD "D")
  let rent_compliance := check_rent_compliance req.postal_code req.monthly_rent req.surface
  { verdict := pipeline_verdict req
    dscr := pipeline_dscr req
    irr := estimated_irr
    cash_on_cash := pipeline_coc req
    cash_flow_projections := pipeline_projections appreciation_rate req
    strategy_fits := fits.take 3
    legal_rent_status :=
      match rent_compliance with
      | some r => r.verdict
      | none => "No rent control in this area"
    rent_band := rent_compliance }

/-- Concrete evaluation request from the spec's end-to-end example: price
800000, loan 640000 at 4% over 20 years, rent 1500 (the route estimates
operating expenses at 25% of rent). -/
def req800k : EvalRequest :=
  { postal_code := "75008", price := 800000, surface := 60, rooms := 3,
    bedrooms := 2, dpe := none, down_payment := 160000, loan_amount := 640000,
    annual_rate := 0.04, loan_term := 20, monthly_rent := 1500,
    projection_years := 30, renovation_costs := 0 }

/-- Concrete all-cash evaluation request (no loan) used to exercise the
IRR fallback path on a short projection. -/
def reqNoLoan : EvalRequest :=
  { postal_code := "75001", price := 100000, surface := 50, rooms := 2,
    bedrooms := 1, dpe := none, down_payment := 20000, loan_amount := 0,
    annual_rate := 0, loan_term := 20, monthly_rent := 1000,
    projection_years := 1, renovation_costs := 0 }

/-! ## Theorems -/

/-- C3: price_verdict returns Unknown exactly when the now-cast value is 0,
and otherwise classifies the ratio price / now-cast as Under-priced
(ratio < 0.95), Average (0.95 <= ratio <= 1.05, both bounds included) or
Overpriced (ratio > 1.05). -/
theorem price_verdict_spec (p v : ℚ) :
    (price_verdict p v = "Unknown" ↔ v = 0) ∧
    (price_verdict p v = "Under-priced" ↔ v ≠ 0 ∧ p / v < 0.95) ∧
    (price_verdict p v = "Average" ↔ v ≠ 0 ∧ 0.95 ≤ p / v ∧ p / v ≤ 1.05) ∧
    (price_verdict p v = "Overpriced" ↔ v ≠ 0 ∧ 1.05 < p / v) := by
  unfold price_verdict
  by_cases hv : v = 0
  · simp [hv]
  · simp only [if_neg hv]
    split_ifs with h1 h2
    · refine ⟨by simp [hv], by simp [hv, h1], ?_, ?_⟩
      · constructor
        · intro h; simp at h
        · rintro ⟨-, h, -⟩; linarith
      · constructor
        · intro h; simp at h
        · rintro ⟨-, h⟩; linarith
    · push_neg at h1
      refine ⟨by simp [hv], ?_, by simp [hv, h1, h2], ?_⟩
      · constructor
        · intro h; simp at h
        · rintro ⟨-, h⟩; linarith
      · constructor
        · intro h; simp at h
        · rintro ⟨-, h⟩; linarith
    · push_neg at h1 h2
      refine ⟨by simp [hv], ?_, ?_, by simp [hv, h2]⟩
      · constructor
        · intro h; simp at h
        · rintro ⟨-, h⟩; linarith
      · constructor
        · intro h; simp at h
        · rintro ⟨-, -, h⟩; linarith

/-- Witness for C3 at the concrete inputs of the spec examples: 9500 vs
10000 and 10500 vs 10000 are Average, 9000 vs 10000 is Under-priced. -/
theorem price_verdict_spec_witness :
    price_verdict 9500 10000 = "Average" ∧
    price_verdict 10500 10000 = "Average" ∧
    price_verdict 9000 10000 = "Under-priced" :=
  ⟨((price_verdict_spec 9500 10000).2.2.1).mpr (by norm_num),
   ((price_verdict_spec 10500 10000).2.2.1).mpr (by norm_num),
   ((price_verdict_spec 9000 10000).2.1).mpr (by norm_num)⟩

/-- C2 (code bug): at days_on_market = 100 and median_dom = 30 (more than
twice the median) with no price cut, neutral DPE grade C and no condition
penalty, listing_delta_calculation returns -0.05, not the -0.10 that the
very-stale branch is documented to apply: the source tests the 1.5 x median
threshold first, so the 2 x median branch is unreachable. -/
theorem listing_delta_dom_penalty_bug :
    listing_delta_calculation 0 100 30 "C" 0 = -0.05 ∧
    listing_delta_calculation 0 100 30 "C" 0 ≠ -0.10 := by
  constructor <;> with_unfolding_all decide

/-- C9: regime_reel_tax reports taxable income gross - deductible -
interest and deficit min(0, taxable), and a deficit (negative taxable
income) bears no income tax, social charges, or total tax for any
non-negative tax rates. -/
theorem regime_reel_tax_spec (g d i mr sc : ℚ) (hmr : 0 ≤ mr) (hsc : 0 ≤ sc) :
    (regime_reel_tax g d i mr sc).taxable_income = g - d - i ∧
    (regime_reel_tax g d i mr sc).deficit = min 0 (g - d - i) ∧
    (g - d - i < 0 →
      (regime_reel_tax g d i mr sc).income_tax = 0 ∧
      (regime_reel_tax g d i mr sc).social_charges = 0 ∧
      (regime_reel_tax g d i mr sc).total_tax = 0) := by
  refine ⟨rfl, rfl, fun hneg => ?_⟩
  have h1 : (g - d - i) * mr ≤ 0 := mul_nonpos_of_nonpos_of_nonneg (le_of_lt hneg) hmr
  have h2 : (g - d - i) * sc ≤ 0 := mul_nonpos_of_nonpos_of_nonneg (le_of_lt hneg) hsc
  have e1 : (regime_reel_tax g d i mr sc).income_tax = 0 := max_eq_left h1
  have e2 : (regime_reel_tax g d i mr sc).social_charges = 0 := max_eq_left h2
  refine ⟨e1, e2, ?_⟩
  show max 0 ((g - d - i) * mr) + max 0 ((g - d - i) * sc) = 0
  rw [max_eq_left h1, max_eq_left h2, add_zero]

/-- Witness for C9 at the spec example: gross 15000, deductible 12000,
interest 8000 gives taxable -5000 (a deficit) and zero tax. -/
theorem regime_reel_tax_spec_witness :
    (0:ℚ) ≤ 0.30 ∧ (0:ℚ) ≤ 0.172 ∧
    ((15000:ℚ) - 12000 - 8000 < 0) ∧
    (regime_reel_tax 15000 12000 8000 0.30 0.172).taxable_income =
      15000 - 12000 - 8000 ∧
    (regime_reel_tax 15000 12000 8000 0.30 0.172).income_tax = 0 ∧
    (regime_reel_tax 15000 12000 8000 0.30 0.172).social_charges = 0 ∧
    (regime_reel_tax 15000 12000 8000 0.30 0.172).total_tax = 0 := by
  have h := regime_reel_tax_spec 15000 12000 8000 0.30 0.172
    (by norm_num) (by norm_num)
  have hneg : (15000:ℚ) - 12000 - 8000 < 0 := by norm_num
  exact ⟨by norm_num, by norm_num, hneg, h.1,
    (h.2.2 hneg).1, (h.2.2 hneg).2.1, (h.2.2 hneg).2.2⟩

/-- Clamping a PyFloat between the finite bounds 0 and 100 always lands in
[0, 100] (including the nan and infinity cases). -/
lemma clamp_0_100_mem (n : PyFloat) :
    0 ≤ (PyFloat.pymax 0 (PyFloat.pymin 100 n)).toQ ∧
    (PyFloat.pymax 0 (PyFloat.pymin 100 n)).toQ ≤ 100 := by
  rcases n with _ | _ | v <;>
    simp only [PyFloat.pymin, PyFloat.pymax, PyFloat.ltQ, PyFloat.gtQ, PyFloat.toQ]
  · norm_num
  · norm_num
  · split_ifs with h1 h2 h3 <;>
      simp only [PyFloat.gtQ, PyFloat.toQ, decide_eq_true_eq] at *  <;>
      constructor <;> linarith

/-- The normalize_score helper always returns a value in [0, 100]. -/
lemma normalize_score_mem (x : PyFloat) (a b : ℚ) :
    0 ≤ normalize_score x a b ∧ normalize_score x a b ≤ 100 := by
  unfold normalize_score
  split_ifs with h
  · norm_num
  · exact clamp_0_100_mem _

/-- The owner-occupier score is a convex combination of clamped scores. -/
lemma owner_occupier_score_mem (tmc market_rent : ℚ) (dscr : PyFloat)
    (pdp : ℚ) (c : Bool) :
    0 ≤ (calculate_owner_occupier_fit tmc market_rent dscr pdp c).score ∧
    (calculate_owner_occupier_fit tmc market_rent dscr pdp c).score ≤ 100 := by
  have h1 := normalize_score_mem (.val (-(tmc - market_rent))) (-1000) 1000
  have h2 := normalize_score_mem (.val (-pdp)) (-0.20) 0.05
  unfold calculate_owner_occupier_fit
  constructor <;> · dsimp only; linarith [h1.1, h1.2, h2.1, h2.2]

/-- The unfurnished-rental score stays in [0, 100], including after the
0.7 non-compliance penalty. -/
lemma location_nue_score_mem (dscr : PyFloat) (irr : ℚ) (c : Bool) (b : ℤ) :
    0 ≤ (calculate_location_nue_fit dscr irr c b).score ∧
    (calculate_location_nue_fit dscr irr c b).score ≤ 100 := by
  have h1 := normalize_score_mem dscr 0.8 1.5
  have h2 := normalize_score_mem (.val irr) 0.02 0.12
  unfold calculate_location_nue_fit
  dsimp only
  split_ifs <;> constructor <;> linarith [h1.1, h1.2, h2.1, h2.2]

/-- The furnished-rental score stays in [0, 100], including after the
0.7 non-compliance penalty. -/
lemma lmnp_score_mem (dscr : PyFloat) (irr : ℚ) (c : Bool) (b : ℤ) :
    0 ≤ (calculate_lmnp_fit dscr irr c b).score ∧
    (calculate_lmnp_fit dscr irr c b).score ≤ 100 := by
  have h1 := normalize_score_mem dscr 0.8 1.5
  have h2 := normalize_score_mem (.val irr) 0.03 0.15
  unfold calculate_lmnp_fit
  dsimp only
  split_ifs <;> constructor <;> linarith [h1.1, h1.2, h2.1, h2.2]

/-- The flatshare score stays in [0, 100], including after the 0.3
few-bedrooms penalty. -/
lemma colocation_score_mem (dscr : PyFloat) (irr : ℚ) (b : ℤ) (c : Bool) :
    0 ≤ (calculate_colocation_fit dscr irr b c).score ∧
    (calculate_colocation_fit dscr irr b c).score ≤ 100 := by
  have h1 := normalize_score_mem dscr 0.8 1.8
  have h2 := normalize_score_mem (.val irr) 0.05 0.20
  have h3 := normalize_score_mem (.val (b : ℚ)) 1 5
  unfold calculate_colocation_fit
  dsimp only
  split_ifs <;> constructor <;>
    linarith [h1.1, h1.2, h2.1, h2.2, h3.1, h3.2]

/-- The value-add score stays in [0, 100] (its DPE component is 50 or
100). -/
lemma value_add_score_mem (dscr : PyFloat) (irr : ℚ) (pdp : ℚ) (g : String) :
    0 ≤ (calculate_value_add_fit dscr irr pdp g).score ∧
    (calculate_value_add_fit dscr irr pdp g).score ≤ 100 := by
  have h1 := normalize_score_mem (.val (-pdp)) (-0.30) 0.0
  have h2 := normalize_score_mem (.val irr) 0.08 0.25
  unfold calculate_value_add_fit
  dsimp only
  split_ifs <;> constructor <;> linarith [h1.1, h1.2, h2.1, h2.2]

/-- C7: calculate_all_strategy_fits returns exactly five results, sorted in
non-increasing order of score, and every score lies in [0, 100]. -/
theorem calculate_all_strategy_fits_spec (tmc market_rent : ℚ) (dscr : PyFloat)
    (irr : ℚ) (price_discount_pct : ℚ) (legal_rent_compliant : Bool)
    (bedrooms : ℤ) (dpe_grade : String) :
    (calculate_all_strategy_fits tmc market_rent dscr irr price_discount_pct
      legal_rent_compliant bedrooms dpe_grade).length = 5 ∧
    (calculate_all_strategy_fits tmc market_rent dscr irr price_discount_pct
      legal_rent_compliant bedrooms dpe_grade).Sorted scoreGE ∧
    ∀ f ∈ calculate_all_strategy_fits tmc market_rent dscr irr price_discount_pct
      legal_rent_compliant bedrooms dpe_grade, 0 ≤ f.score ∧ f.score ≤ 100 := by
  refine ⟨?_, ?_, ?_⟩
  · unfold calculate_all_strategy_fits
    rw [List.length_insertionSort]
    rfl
  · exact List.sorted_insertionSort scoreGE _
  · intro f hf
    unfold calculate_all_strategy_fits at hf
    rw [List.mem_insertionSort] at hf
    simp only [List.mem_cons, List.not_mem_nil, or_false] at hf
    rcases hf with h | h | h | h | h <;> subst h
    · exact owner_occupier_score_mem _ _ _ _ _
    · exact location_nue_score_mem _ _ _ _
    · exact lmnp_score_mem _ _ _ _
    · exact colocation_score_mem _ _ _ _
    · exact value_add_score_mem _ _ _ _

/-- Monotonicity of the Python float comparison: a value at least b is also
at least any a below b. -/
lemma geB_mono (d : PyFloat) {a b : ℚ} (hab : a ≤ b) (h : d.geB b = true) :
    d.geB a = true := by
  cases d with
  | nan => simp [PyFloat.geB] at h
  | inf => rfl
  | val v =>
    simp only [PyFloat.geB, decide_eq_true_eq] at h ⊢
    exact le_trans hab h

/-- C1: the verdict of the evaluate route is determined solely by the
computed DSCR: BUY exactly when DSCR >= 1.2, CAUTION exactly when
1.0 <= DSCR < 1.2, PASS exactly when DSCR < 1.0 (comparisons in Python
float order, where an infinite DSCR counts as above both thresholds); and
on the spec's end-to-end example (price 800000, loan 640000 at 4%/20y,
rent 1500) the DSCR is below 1.0 and the verdict is PASS. -/
theorem evaluate_verdict_dscr_only (npfIrr : List ℚ → Option ℚ)
    (appreciation_rate : ℚ) (req : EvalRequest) :
    ((evaluate_property npfIrr appreciation_rate req).verdict = "BUY" ↔
      (evaluate_property npfIrr appreciation_rate req).dscr.geB 1.2 = true) ∧
    ((evaluate_property npfIrr appreciation_rate req).verdict = "CAUTION" ↔
      ((evaluate_property npfIrr appreciation_rate req).dscr.geB 1.0 = true ∧
       (evaluate_property npfIrr appreciation_rate req).dscr.geB 1.2 = false)) ∧
    ((evaluate_property npfIrr appreciation_rate req).verdict = "PASS" ↔
      (evaluate_property npfIrr appreciation_rate req).dscr.geB 1.0 = false) ∧
    ((evaluate_property (fun _ => none) 0.02 req800k).dscr.geB 1.0 = false ∧
     (evaluate_property (fun _ => none) 0.02 req800k).verdict = "PASS") := by
  have e1 : (evaluate_property npfIrr appreciation_rate req).verdict =
      pipeline_verdict req := rfl
  have e2 : (evaluate_property npfIrr appreciation_rate req).dscr =
      pipeline_dscr req := rfl
  rw [e1, e2]
  unfold pipeline_verdict
  have himp : (pipeline_dscr req).geB 1.2 = true →
      (pipeline_dscr req).geB 1.0 = true :=
    geB_mono _ (by norm_num)
  refine ⟨?_, ?_, ?_, by with_unfolding_all decide, by with_unfolding_all decide⟩ <;>
  · rcases h12 : (pipeline_dscr req).geB 1.2 with - | - <;>
      rcases h10 : (pipeline_dscr req).geB 1.0 with - | - <;>
      first
      | exact Bool.noConfusion ((himp h12).symm.trans h10)
      | simp [h12, h10]

/-- C8: whenever the IRR of the pipeline's cash-flow series (sale proceeds
added to the final year) is the nan sentinel, the irr reported in the
response is exactly 0.8 times the computed cash-on-cash return; and the
IRR wrapper returns the sentinel for every series of fewer than two
flows. -/
theorem evaluate_irr_nan_fallback (npfIrr : List ℚ → Option ℚ)
    (appreciation_rate : ℚ) (req : EvalRequest)
    (h : irr_calculation npfIrr (pipeline_cash_flows appreciation_rate req) = none) :
    (evaluate_property npfIrr appreciation_rate req).irr =
      0.8 * (evaluate_property npfIrr appreciation_rate req).cash_on_cash ∧
    ∀ flows : List ℚ, flows.length < 2 → irr_calculation npfIrr flows = none := by
  constructor
  · have e1 : (evaluate_property npfIrr appreciation_rate req).irr =
        pipeline_estimated_irr npfIrr appreciation_rate req := rfl
    have e2 : (evaluate_property npfIrr appreciation_rate req).cash_on_cash =
        pipeline_coc req := rfl
    rw [e1, e2]
    unfold pipeline_estimated_irr
    rw [h]
    exact mul_comm _ _
  · intro flows hlen
    unfold irr_calculation
    rw [if_pos hlen]

/-- Witness for C8: with the root-finder failing (always nan) on the
all-cash request, the hypothesis holds and the reported irr is 0.8 times
cash-on-cash. -/
theorem evaluate_irr_nan_fallback_witness :
    irr_calculation (fun _ => none) (pipeline_cash_flows 0.02 reqNoLoan) = none ∧
    (evaluate_property (fun _ => none) 0.02 reqNoLoan).irr =
      0.8 * (evaluate_property (fun _ => none) 0.02 reqNoLoan).cash_on_cash := by
  have h : irr_calculation (fun _ => none)
      (pipeline_cash_flows 0.02 reqNoLoan) = none := by
    with_unfolding_all decide
  exact ⟨h, (evaluate_irr_nan_fallback (fun _ => none) 0.02 reqNoLoan h).1⟩

/-- Core properties of the compliance record built from a resolved band
(mn, mx, md): the compliance test, the band-position percentage in the
non-degenerate and degenerate cases, and the absence of clamping on the
percentage in both out-of-band directions. -/
lemma rentComplianceFromBand_spec (mn mx md : ℚ) (est : Bool) (rent surface : ℚ) :
    ((rentComplianceFromBand (mn, mx, md) est rent surface).is_compliant = true ↔
      (mn ≤ rent / surface ∧ rent / surface ≤ mx)) ∧
    (mn < mx → (rentComplianceFromBand (mn, mx, md) est rent surface).compliance_percentage =
      (rent / surface - mn) / (mx - mn) * 100) ∧
    (¬ mn < mx → (rentComplianceFromBand (mn, mx, md) est rent surface).compliance_percentage = 50) ∧
    (mn < mx → mx < rent / surface →
      100 < (rentComplianceFromBand (mn, mx, md) est rent surface).compliance_percentage ∧
      (rentComplianceFromBand (mn, mx, md) est rent surface).is_compliant = false) ∧
    (mn < mx → rent / surface < mn →
      (rentComplianceFromBand (mn, mx, md) est rent surface).compliance_percentage < 0 ∧
      (rentComplianceFromBand (mn, mx, md) est rent surface).is_compliant = false) := by
  have hic : (rentComplianceFromBand (mn, mx, md) est rent surface).is_compliant =
      decide (mn ≤ rent / surface ∧ rent / surface ≤ mx) := rfl
  have hcp : (rentComplianceFromBand (mn, mx, md) est rent surface).compliance_percentage =
      (if mn < mx then (rent / surface - mn) / (mx - mn) * 100 else 50) := rfl
  refine ⟨?_, ?_, ?_, ?_, ?_⟩
  · rw [hic]; simp [decide_eq_true_eq]
  · intro h; rw [hcp, if_pos h]
  · intro h; rw [hcp, if_neg h]
  · intro h hgt
    constructor
    · rw [hcp, if_pos h]
      have hd : 0 < mx - mn := by linarith
      have h1 : 1 < (rent / surface - mn) / (mx - mn) :=
        (one_lt_div hd).mpr (by linarith)
      linarith
    · rw [hic]
      simp only [decide_eq_false_iff_not, not_and, not_le]
      intro _; exact hgt
  · intro h hlt
    constructor
    · rw [hcp, if_pos h]
      have hd : 0 < mx - mn := by linarith
      have h1 : (rent / surface - mn) / (mx - mn) < 0 :=
        div_neg_of_neg_of_pos (by linarith) hd
      linarith
    · rw [hic]
      simp only [decide_eq_false_iff_not, not_and, not_le]
      intro hmn
      exact absurd hlt (not_lt.mpr hmn)

/-- Inversion for check_rent_compliance: a some result always comes from
rentComplianceFromBand on a resolved band. -/
lemma check_rent_compliance_inv (pc : String) (rent surface : ℚ)
    (r : RentComplianceResult)
    (hsome : check_rent_compliance pc rent surface = some r) :
    ∃ (b : ℚ × ℚ × ℚ) (est : Bool), r = rentComplianceFromBand b est rent surface := by
  unfold check_rent_compliance at hsome
  rcases hbl : get_rent_control_band pc with - | b
  · rw [hbl] at hsome
    rcases hre : get_regional_rent_estimate pc with - | b
    · rw [hre] at hsome; exact absurd hsome (by simp)
    · rw [hre] at hsome
      exact ⟨b, true, (Option.some.inj hsome).symm⟩
  · rw [hbl] at hsome
    exact ⟨b, false, (Option.some.inj hsome).symm⟩

/-- C6: for every postal code that resolves to a band, check_rent_compliance
reports is_compliant exactly when the rent per square metre lies within
[min, max], reports the band position scaled to 0-100 when max > min and
exactly 50 on a degenerate band, and on the 75001 example (band 25.0-35.2,
rent 1600 on 50 square metres) it is compliant with verdict Conformant -
High and percentage 3500/51, which is approximately 68.6. -/
theorem check_rent_compliance_spec (pc : String) (rent surface : ℚ)
    (r : RentComplianceResult) (hs : 0 < surface)
    (hsome : check_rent_compliance pc rent surface = some r) :
    (r.is_compliant = true ↔
      (r.min_rent ≤ rent / surface ∧ rent / surface ≤ r.max_rent)) ∧
    (r.min_rent < r.max_rent → r.compliance_percentage =
      (rent / surface - r.min_rent) / (r.max_rent - r.min_rent) * 100) ∧
    (r.max_rent = r.min_rent → r.compliance_percentage = 50) ∧
    (check_rent_compliance "75001" 1600 50).map (fun x => x.is_compliant) = some true ∧
    (check_rent_compliance "75001" 1600 50).map (fun x => x.verdict) =
      some "Conformant – High" ∧
    (check_rent_compliance "75001" 1600 50).map (fun x => x.compliance_percentage) =
      some (3500 / 51) ∧
    (68.6 : ℚ) < 3500 / 51 ∧ (3500 / 51 : ℚ) < 68.7 := by
  obtain ⟨⟨mn, mx, md⟩, est, rfl⟩ := check_rent_compliance_inv pc rent surface r hsome
  have h := rentComplianceFromBand_spec mn mx md est rent surface
  refine ⟨h.1, h.2.1, ?_, by with_unfolding_all rfl, by with_unfolding_all rfl,
    by with_unfolding_all rfl, by norm_num, by norm_num⟩
  intro heq
  have heq' : mx = mn := heq
  exact h.2.2.1 (by rw [heq']; exact lt_irrefl mn)

/-- Witness for C6 at the 75001 example of the spec. -/
theorem check_rent_compliance_spec_witness :
    (0 : ℚ) < 50 ∧
    check_rent_compliance "75001" 1600 50 = some
      { min_rent := 25, max_rent := 176 / 5, median_rent := 301 / 10,
        property_rent_per_m2 := 32, total_monthly_rent := 1600, surface := 50,
        is_compliant := true, compliance_percentage := 3500 / 51,
        verdict := "Conformant – High", is_estimate := false } ∧
    ((check_rent_compliance "75001" 1600 50).map (fun x => x.verdict) =
      some "Conformant – High") := by
  have hsome : check_rent_compliance "75001" 1600 50 = some
      { min_rent := 25, max_rent := 176 / 5, median_rent := 301 / 10,
        property_rent_per_m2 := 32, total_monthly_rent := 1600, surface := 50,
        is_compliant := true, compliance_percentage := 3500 / 51,
        verdict := "Conformant – High", is_estimate := false } := by
    with_unfolding_all rfl
  exact ⟨by norm_num, hsome,
    (check_rent_compliance_spec "75001" 1600 50 _ (by norm_num) hsome).2.2.2.2.1⟩

/-- C10 (implicit): the compliance percentage is never clamped to [0, 100]:
over a non-degenerate band, a rent per square metre above the maximum gives
a percentage strictly above 100 and one below the minimum gives a strictly
negative percentage, with is_compliant false in both cases. -/
theorem check_rent_compliance_unclamped (pc : String) (rent surface : ℚ)
    (r : RentComplianceResult) (hs : 0 < surface)
    (hsome : check_rent_compliance pc rent surface = some r)
    (hband : r.min_rent < r.max_rent) :
    (r.max_rent < rent / surface →
      100 < r.compliance_percentage ∧ r.is_compliant = false) ∧
    (rent / surface < r.min_rent →
      r.compliance_percentage < 0 ∧ r.is_compliant = false) := by
  obtain ⟨⟨mn, mx, md⟩, est, rfl⟩ := check_rent_compliance_inv pc rent surface r hsome
  have h := rentComplianceFromBand_spec mn mx md est rent surface
  have hband' : mn < mx := hband
  exact ⟨h.2.2.2.1 hband', h.2.2.2.2 hband'⟩

/-- Witness for C10: postal code 75001 with rent 3000 on 50 square metres
(60 euros per square metre, above the 35.2 ceiling) yields a compliance
percentage of 17500/51, strictly above 100, and is_compliant false. -/
theorem check_rent_compliance_unclamped_witness :
    (0 : ℚ) < 50 ∧
    check_rent_compliance "75001" 3000 50 = some
      { min_rent := 25, max_rent := 176 / 5, median_rent := 301 / 10,
        property_rent_per_m2 := 60, total_monthly_rent := 3000, surface := 50,
        is_compliant := false, compliance_percentage := 17500 / 51,
        verdict := "Non-conformant (exceeds maximum)", is_estimate := false } ∧
    (100 : ℚ) < 17500 / 51 := by
  have hsome : check_rent_compliance "75001" 3000 50 = some
      { min_rent := 25, max_rent := 176 / 5, median_rent := 301 / 10,
        property_rent_per_m2 := 60, total_monthly_rent := 3000, surface := 50,
        is_compliant := false, compliance_percentage := 17500 / 51,
        verdict := "Non-conformant (exceeds maximum)", is_estimate := false } := by
    with_unfolding_all rfl
  refine ⟨by norm_num, hsome, ?_⟩
  have h := (check_rent_compliance_unclamped "75001" 3000 50 _ (by norm_num) hsome
    (by norm_num)).1 (by norm_num)
  exact h.1

/-- The operating-year loop produces one entry per requested year. -/
lemma cashFlowYears_length (mr moe mmp : ℚ) (sched : List AmortEntry) (ar vr : ℚ) :
    ∀ (n year : ℕ) (cum pv : ℚ),
      (cashFlowYears mr moe mmp sched ar vr year n cum pv).length = n := by
  intro n
  induction n with
  | zero => intro year cum pv; rfl
  | succ n ih =>
    intro year cum pv
    simp only [cashFlowYears, List.length_cons, ih]

/-- Every entry the operating-year loop produces carries a year index at
least the starting year. -/
lemma cashFlowYears_year_ge (mr moe mmp : ℚ) (sched : List AmortEntry) (ar vr : ℚ) :
    ∀ (n year : ℕ) (cum pv : ℚ),
      ∀ p ∈ cashFlowYears mr moe mmp sched ar vr year n cum pv, year ≤ p.year := by
  intro n
  induction n with
  | zero => intro year cum pv p hp; simp [cashFlowYears] at hp
  | succ n ih =>
    intro year cum pv p hp
    simp only [cashFlowYears, List.mem_cons] at hp
    rcases hp with rfl | hp
    · exact le_refl _
    · exact le_trans (Nat.le_succ year) (ih (year + 1) _ _ p hp)

/-- Cumulative cash flow of the k-th entry of the operating-year loop: the
starting cumulative value plus the sum of the cash flows of the first k+1
emitted entries. -/
lemma cashFlowYears_cumulative (mr moe mmp : ℚ) (sched : List AmortEntry) (ar vr : ℚ) :
    ∀ (n year : ℕ) (cum pv : ℚ) (k : ℕ)
      (hk : k < (cashFlowYears mr moe mmp sched ar vr year n cum pv).length),
      ((cashFlowYears mr moe mmp sched ar vr year n cum pv).get ⟨k, hk⟩).cumulative_cash_flow =
        cum + (((cashFlowYears mr moe mmp sched ar vr year n cum pv).take (k + 1)).map
          (fun p => p.cash_flow)).sum := by
  intro n
  induction n with
  | zero =>
    intro year cum pv k hk
    simp [cashFlowYears] at hk
  | succ n ih =>
    intro year cum pv k hk
    rcases k with - | k
    · simp only [cashFlowYears, List.get, List.take_succ_cons, List.take_zero,
        List.map_cons, List.map_nil, List.sum_cons, List.sum_nil, add_zero]
      rfl
    · have hk' : k < (cashFlowYears mr moe mmp sched ar vr (year + 1) n
          (cashFlowYearEntry mr moe mmp sched ar vr year cum pv).cumulative_cash_flow
          (cashFlowYearEntry mr moe mmp sched ar vr year cum pv).property_value).length := by
        have := hk
        simp only [cashFlowYears, List.length_cons] at this
        omega
      have := ih (year + 1)
        (cashFlowYearEntry mr moe mmp sched ar vr year cum pv).cumulative_cash_flow
        (cashFlowYearEntry mr moe mmp sched ar vr year cum pv).property_value k hk'
      simp only [cashFlowYears, List.get_cons_succ, List.take_succ_cons,
        List.map_cons, List.sum_cons]
      rw [this]
      have hccf : (cashFlowYearEntry mr moe mmp sched ar vr year cum pv).cumulative_cash_flow =
          cum + (cashFlowYearEntry mr moe mmp sched ar vr year cum pv).cash_flow := rfl
      rw [hccf]
      ring

/-- C4: a cash-flow projection over years >= 1 has exactly years + 1
entries of which exactly one is the year-0 purchase entry; that entry
carries cash flow -(down payment + renovation + purchase fees) and no
rental income, vacancy loss, expenses, NOI, or mortgage payment; and every
entry's cumulative cash flow is the sum of the cash flows of entries 0
through that entry. -/
theorem calculate_cash_flow_projection_spec
    (initial_property_value monthly_rent monthly_operating_expenses
      monthly_mortgage_payment : ℚ) (sched : List AmortEntry)
    (appreciation_rate vacancy_rate : ℚ) (years : ℕ)
    (down_payment renovation_costs purchase_fees : ℚ) (hy : 1 ≤ years) :
    (calculate_cash_flow_projection initial_property_value monthly_rent
      monthly_operating_expenses monthly_mortgage_payment sched appreciation_rate
      vacancy_rate years down_payment renovation_costs purchase_fees).length =
      years + 1 ∧
    ((calculate_cash_flow_projection initial_property_value monthly_rent
      monthly_operating_expenses monthly_mortgage_payment sched appreciation_rate
      vacancy_rate years down_payment renovation_costs purchase_fees).filter
      (fun p => p.year == 0)).length = 1 ∧
    (∀ p ∈ calculate_cash_flow_projection initial_property_value monthly_rent
      monthly_operating_expenses monthly_mortgage_payment sched appreciation_rate
      vacancy_rate years down_payment renovation_costs purchase_fees,
      p.year = 0 →
        p.cash_flow = -(down_payment + renovation_costs + purchase_fees) ∧
        p.rental_income = 0 ∧ p.vacancy_loss = 0 ∧ p.operating_expenses = 0 ∧
        p.noi = 0 ∧ p.mortgage_payment = 0) ∧
    (∀ (k : ℕ) (hk : k < (calculate_cash_flow_projection initial_property_value
        monthly_rent monthly_operating_expenses monthly_mortgage_payment sched
        appreciation_rate vacancy_rate years down_payment renovation_costs
        purchase_fees).length),
      ((calculate_cash_flow_projection initial_property_value monthly_rent
        monthly_operating_expenses monthly_mortgage_payment sched appreciation_rate
        vacancy_rate years down_payment renovation_costs purchase_fees).get
        ⟨k, hk⟩).cumulative_cash_flow =
      (((calculate_cash_flow_projection initial_property_value monthly_rent
        monthly_operating_expenses monthly_mortgage_payment sched appreciation_rate
        vacancy_rate years down_payment renovation_costs purchase_fees).take
        (k + 1)).map (fun p => p.cash_flow)).sum) := by
  have hshape : calculate_cash_flow_projection initial_property_value monthly_rent
      monthly_operating_expenses monthly_mortgage_payment sched appreciation_rate
      vacancy_rate years down_payment renovation_costs purchase_fees =
      ({ year := 0, rental_income := 0, vacancy_loss := 0,
         effective_rental_income := 0, operating_expenses := 0,
         mortgage_payment := 0, noi := 0,
         cash_flow := -(down_payment + renovation_costs + purchase_fees),
         cumulative_cash_flow := -(down_payment + renovation_costs + purchase_fees),
         property_value := initial_property_value,
         equity := initial_property_value -
           (match sched.head? with
            | some entry => entry.remaining_balance
            | none => 0),
         remaining_loan_balance :=
           (match sched.head? with
            | some entry => entry.remaining_balance
            | none => 0) } : CashFlowProjection) ::
        cashFlowYears monthly_rent monthly_operating_expenses
          monthly_mortgage_payment sched appreciation_rate vacancy_rate 1 years
          (-(down_payment + renovation_costs + purchase_fees))
          initial_property_value := rfl
  rw [hshape]
  refine ⟨?_, ?_, ?_, ?_⟩
  · simp only [List.length_cons,
      cashFlowYears_length monthly_rent monthly_operating_expenses
        monthly_mortgage_payment sched appreciation_rate vacancy_rate]
  · rw [List.filter_cons_of_pos (by rfl)]
    have hnil : (cashFlowYears monthly_rent monthly_operating_expenses
        monthly_mortgage_payment sched appreciation_rate vacancy_rate 1 years
        (-(down_payment + renovation_costs + purchase_fees))
        initial_property_value).filter (fun p => p.year == 0) = [] := by
      rw [List.filter_eq_nil_iff]
      intro p hp
      have h1 := cashFlowYears_year_ge monthly_rent monthly_operating_expenses
        monthly_mortgage_payment sched appreciation_rate vacancy_rate years 1 _ _ p hp
      simp only [beq_iff_eq]
      omega
    rw [hnil]
    rfl
  · intro p hp hy0
    rcases List.mem_cons.mp hp with rfl | hp
    · exact ⟨rfl, rfl, rfl, rfl, rfl, rfl⟩
    · have h1 := cashFlowYears_year_ge monthly_rent monthly_operating_expenses
        monthly_mortgage_payment sched appreciation_rate vacancy_rate years 1 _ _ p hp
      omega
  · intro k hk
    rcases k with - | k
    · simp only [List.get, List.take_succ_cons, List.take_zero, List.map_cons,
        List.map_nil, List.sum_cons, List.sum_nil, add_zero]
    · have hk' : k < (cashFlowYears monthly_rent monthly_operating_expenses
          monthly_mortgage_payment sched appreciation_rate vacancy_rate 1 years
          (-(down_payment + renovation_costs + purchase_fees))
          initial_property_value).length := by
        have := hk
        simp only [List.length_cons] at this
        omega
      have := cashFlowYears_cumulative monthly_rent monthly_operating_expenses
        monthly_mortgage_payment sched appreciation_rate vacancy_rate years 1
        (-(down_payment + renovation_costs + purchase_fees))
        initial_property_value k hk'
      simp only [List.get_cons_succ, List.take_succ_cons, List.map_cons, List.sum_cons]
      rw [this]

/-- Witness for C4 on a one-year projection with no loan: down payment
20000 and fees 7000 give a year-0 outlay of -27000. -/
theorem calculate_cash_flow_projection_spec_witness :
    1 ≤ 1 ∧
    ((calculate_cash_flow_projection 100000 1000 250 0 [] 0.02 0.05 1
      20000 0 7000).length = 1 + 1 ∧
    ((calculate_cash_flow_projection 100000 1000 250 0 [] 0.02 0.05 1
      20000 0 7000).filter (fun p => p.year == 0)).length = 1 ∧
    (∀ p ∈ calculate_cash_flow_projection 100000 1000 250 0 [] 0.02 0.05 1
      20000 0 7000, p.year = 0 →
        p.cash_flow = -(20000 + 0 + 7000) ∧
        p.rental_income = 0 ∧ p.vacancy_loss = 0 ∧ p.operating_expenses = 0 ∧
        p.noi = 0 ∧ p.mortgage_payment = 0) ∧
    (∀ (k : ℕ) (hk : k < (calculate_cash_flow_projection 100000 1000 250 0 []
        0.02 0.05 1 20000 0 7000).length),
      ((calculate_cash_flow_projection 100000 1000 250 0 [] 0.02 0.05 1
        20000 0 7000).get ⟨k, hk⟩).cumulative_cash_flow =
      (((calculate_cash_flow_projection 100000 1000 250 0 [] 0.02 0.05 1
        20000 0 7000).take (k + 1)).map (fun p => p.cash_flow)).sum)) :=
  ⟨le_refl 1,
   calculate_cash_flow_projection_spec 100000 1000 250 0 [] 0.02 0.05 1
     20000 0 7000 (le_refl 1)⟩

/-- Closed form for the amortization loop over exact rational arithmetic.
If the running balance equals the annuity value of the m remaining payments
(balance = pay x (1 - (1+i)^(-m)) / i), the loop emits entries whose
principal portions are pay x (1+i)^(k-m), interest portions
pay x (1 - (1+i)^(k-m)), and reported balances the annuity values of the
remaining terms (on which the max-with-0 clamp is a no-op). -/
lemma amortAux_closed_form (pay i : ℚ) (hi : 0 < i) (hpay : 0 < pay) :
    ∀ (m : ℕ) (start : ℤ) (bal : ℚ),
      bal = pay * (1 - (1 + i) ^ (-(m : ℤ))) / i →
      amortAux pay i bal start m =
        (List.range m).map (fun k =>
          { payment_number := start + k
            payment := pay
            principal_payment := pay * (1 + i) ^ ((k : ℤ) - (m : ℤ))
            interest_payment := pay * (1 - (1 + i) ^ ((k : ℤ) - (m : ℤ)))
            remaining_balance := pay * (1 - (1 + i) ^ ((k : ℤ) + 1 - (m : ℤ))) / i }) := by
  intro m
  induction m with
  | zero => intro start bal hbal; rfl
  | succ m ih =>
    intro start bal hbal
    have hi' : i ≠ 0 := ne_of_gt hi
    have h1i : (0:ℚ) < 1 + i := by linarith
    have h1i' : (1:ℚ) + i ≠ 0 := ne_of_gt h1i
    have h1le : (1:ℚ) ≤ 1 + i := by linarith
    have hcast : (-(((m:ℕ) + 1 : ℕ) : ℤ)) = -((m:ℤ) + 1) := by push_cast; ring
    have hx : (1 + i) ^ (-((m:ℤ) + 1)) * (1 + i) = (1 + i) ^ (-(m:ℤ)) := by
      rw [← zpow_add_one₀ h1i']
      congr 1
      ring
    rw [hcast] at hbal
    have hbi : bal * i = pay * (1 - (1 + i) ^ (-((m:ℤ) + 1))) := by
      rw [hbal]; field_simp
    have hnew : bal - (pay - bal * i) = pay * (1 - (1 + i) ^ (-(m:ℤ))) / i := by
      have h0 : bal - (pay - bal * i) = bal * (1 + i) - pay := by ring
      rw [h0, hbal, ← hx]
      field_simp
      ring
    have hle1 : (1 + i) ^ (-(m:ℤ)) ≤ 1 :=
      zpow_le_one_of_nonpos₀ h1le (by omega)
    have hnn : 0 ≤ pay * (1 - (1 + i) ^ (-(m:ℤ))) / i :=
      div_nonneg (mul_nonneg (le_of_lt hpay) (by linarith)) (le_of_lt hi)
    simp only [amortAux]
    rw [List.range_succ_eq_map, List.map_cons, List.map_map]
    congr 1
    · simp only [AmortEntry.mk.injEq]
      have e3 : ((0:ℕ) : ℤ) - (((m:ℕ) + 1 : ℕ) : ℤ) = -((m:ℤ) + 1) := by
        push_cast; ring
      have e5 : ((0:ℕ) : ℤ) + 1 - (((m:ℕ) + 1 : ℕ) : ℤ) = -(m:ℤ) := by
        push_cast; ring
      refine ⟨by simp, trivial, ?_, ?_, ?_⟩
      · rw [e3, hbi]; ring
      · rw [e3, hbi]
      · rw [e5, hnew, max_eq_right hnn]
    · rw [hnew, ih (start + 1) _ rfl]
      apply List.map_congr_left
      intro k hk
      simp only [Function.comp_apply, Nat.succ_eq_add_one, AmortEntry.mk.injEq]
      have e1 : start + 1 + (k : ℤ) = start + (((k:ℕ) + 1 : ℕ) : ℤ) := by
        push_cast; ring
      have e2 : ((k:ℕ) : ℤ) - ((m:ℕ) : ℤ) =
          (((k:ℕ) + 1 : ℕ) : ℤ) - (((m:ℕ) + 1 : ℕ) : ℤ) := by push_cast; ring
      have e4 : ((k:ℕ) : ℤ) + 1 - ((m:ℕ) : ℤ) =
          (((k:ℕ) + 1 : ℕ) : ℤ) + 1 - (((m:ℕ) + 1 : ℕ) : ℤ) := by push_cast; ring
      exact ⟨e1, trivial, by rw [e2], by rw [e2], by rw [e4]⟩

/-- C5: for a positive principal, positive rate and at least one year,
amortization_schedule has exactly years x 12 entries numbered 1..n in
order; the first interest payment is principal x rate/12 and every later
interest payment is the previous reported balance x rate/12; principal
portions strictly increase and interest portions strictly decrease across
successive entries; every reported remaining balance is non-negative; and
the schedule is empty whenever principal <= 0 or years <= 0. -/
theorem amortization_schedule_spec (principal annual_rate : ℚ) (years : ℤ) :
    (0 < principal → 0 < annual_rate → 1 ≤ years →
      (((amortization_schedule principal annual_rate years).length : ℤ) =
        years * 12) ∧
      (∀ (k : ℕ) (hk : k < (amortization_schedule principal annual_rate years).length),
        ((amortization_schedule principal annual_rate years).get
          ⟨k, hk⟩).payment_number = (k : ℤ) + 1) ∧
      (∀ (hk : 0 < (amortization_schedule principal annual_rate years).length),
        ((amortization_schedule principal annual_rate years).get
          ⟨0, hk⟩).interest_payment = principal * (annual_rate / 12)) ∧
      (∀ (k : ℕ) (hk : k + 1 < (amortization_schedule principal annual_rate years).length),
        ((amortization_schedule principal annual_rate years).get
          ⟨k + 1, hk⟩).interest_payment =
        ((amortization_schedule principal annual_rate years).get
          ⟨k, Nat.lt_of_succ_lt hk⟩).remaining_balance * (annual_rate / 12)) ∧
      (∀ (k : ℕ) (hk : k + 1 < (amortization_schedule principal annual_rate years).length),
        ((amortization_schedule principal annual_rate years).get
          ⟨k, Nat.lt_of_succ_lt hk⟩).principal_payment <
        ((amortization_schedule principal annual_rate years).get
          ⟨k + 1, hk⟩).principal_payment ∧
        ((amortization_schedule principal annual_rate years).get
          ⟨k + 1, hk⟩).interest_payment <
        ((amortization_schedule principal annual_rate years).get
          ⟨k, Nat.lt_of_succ_lt hk⟩).interest_payment) ∧
      (∀ e ∈ amortization_schedule principal annual_rate years,
        0 ≤ e.remaining_balance)) ∧
    (principal ≤ 0 ∨ years ≤ 0 →
      amortization_schedule principal annual_rate years = []) := by
  constructor
  · intro hP hr hy
    have hi : 0 < annual_rate / 12 := by positivity
    have hi' : annual_rate / 12 ≠ 0 := ne_of_gt hi
    have h1i : (0:ℚ) < 1 + annual_rate / 12 := by linarith
    have h1lt : (1:ℚ) < 1 + annual_rate / 12 := by linarith
    have h1le : (1:ℚ) ≤ 1 + annual_rate / 12 := by linarith
    have hy12 : (0:ℤ) < years * 12 := by omega
    have hn : (((years * 12).toNat : ℕ) : ℤ) = years * 12 :=
      Int.toNat_of_nonneg (le_of_lt hy12)
    have hguard : ¬(principal ≤ 0 ∨ years ≤ 0) := by push_neg; exact ⟨hP, by omega⟩
    have hrg : ¬(annual_rate = 0) := ne_of_gt hr
    -- the discount factor over the full term is strictly below 1
    have hxlt : (1 + annual_rate / 12) ^ (-(years * 12)) < 1 := by
      have hgt : (1:ℚ) < (1 + annual_rate / 12) ^ (years * 12) := by
        have := zpow_lt_zpow_right₀ h1lt hy12
        rwa [zpow_zero] at this
      rw [zpow_neg]
      exact inv_lt_one_of_one_lt₀ hgt
    have hxpos : (0:ℚ) < (1 + annual_rate / 12) ^ (-(years * 12)) := zpow_pos h1i _
    have hden : (0:ℚ) < 1 - (1 + annual_rate / 12) ^ (-(years * 12)) := by linarith
    have hpayeq : monthly_payment principal annual_rate years =
        principal * ((annual_rate / 12) /
          (1 - (1 + annual_rate / 12) ^ (-(years * 12)))) := by
      unfold monthly_payment
      rw [if_neg hguard, if_neg hrg]
    have hpay : 0 < monthly_payment principal annual_rate years := by
      rw [hpayeq]
      exact mul_pos hP (div_pos hi hden)
    have hden' : 1 - (1 + annual_rate / 12) ^ (-(years * 12)) ≠ 0 := ne_of_gt hden
    have hinv : principal = monthly_payment principal annual_rate years *
        (1 - (1 + annual_rate / 12) ^ (-(((years * 12).toNat : ℕ) : ℤ))) /
        (annual_rate / 12) := by
      rw [hpayeq, hn]
      have h1 : principal * ((annual_rate / 12) /
            (1 - (1 + annual_rate / 12) ^ (-(years * 12)))) *
          (1 - (1 + annual_rate / 12) ^ (-(years * 12))) =
          principal * (annual_rate / 12) := by
        rw [mul_assoc, div_mul_cancel₀ _ hden']
      rw [h1, mul_div_cancel_right₀ _ hi']
    have hsched : amortization_schedule principal annual_rate years =
        amortAux (monthly_payment principal annual_rate years) (annual_rate / 12)
          principal 1 (years * 12).toNat := by
      unfold amortization_schedule
      rw [if_neg hguard]
    have hclosed := amortAux_closed_form (monthly_payment principal annual_rate years)
      (annual_rate / 12) hi hpay (years * 12).toNat 1 principal hinv
    rw [hsched, hclosed]
    set pay := monthly_payment principal annual_rate years with hpaydef
    set n : ℕ := (years * 12).toNat with hndef
    set j : ℚ := annual_rate / 12 with hjdef
    refine ⟨?_, ?_, ?_, ?_, ?_, ?_⟩
    · simp only [List.length_map, List.length_range]
      exact hn
    · intro k hk
      rw [List.get_eq_getElem]
      simp only [List.getElem_map, List.getElem_range]
      ring
    · intro hk
      rw [List.get_eq_getElem]
      simp only [List.getElem_map, List.getElem_range]
      have e0 : ((0:ℕ) : ℤ) - ((n:ℕ) : ℤ) = -((n:ℕ) : ℤ) := by push_cast; ring
      rw [e0]
      rw [hinv]
      field_simp
      ring
    · intro k hk
      rw [List.get_eq_getElem, List.get_eq_getElem]
      simp only [List.getElem_map, List.getElem_range]
      have e1 : ((k:ℕ) : ℤ) + 1 - ((n:ℕ) : ℤ) = (((k:ℕ) + 1 : ℕ) : ℤ) - ((n:ℕ) : ℤ) := by
        push_cast; ring
      rw [div_mul_cancel₀ _ (ne_of_gt hi), e1]
    · intro k hk
      rw [List.get_eq_getElem, List.get_eq_getElem]
      simp only [List.getElem_map, List.getElem_range]
      have hklt : ((k:ℕ) : ℤ) - ((n:ℕ) : ℤ) < (((k:ℕ) + 1 : ℕ) : ℤ) - ((n:ℕ) : ℤ) := by
        push_cast; linarith
      have hzlt := zpow_lt_zpow_right₀ h1lt hklt
      constructor
      · exact (mul_lt_mul_left hpay).mpr hzlt
      · exact (mul_lt_mul_left hpay).mpr (by linarith)
    · intro e he
      rw [List.mem_map] at he
      obtain ⟨k, hk, rfl⟩ := he
      rw [List.mem_range] at hk
      have hexp : ((k:ℕ) : ℤ) + 1 - ((n:ℕ) : ℤ) ≤ 0 := by omega
      have hle1 : (1 + j) ^ (((k:ℕ) : ℤ) + 1 - ((n:ℕ) : ℤ)) ≤ 1 :=
        zpow_le_one_of_nonpos₀ h1le hexp
      exact div_nonneg (mul_nonneg (le_of_lt hpay) (by linarith)) (le_of_lt hi)
  · intro h
    unfold amortization_schedule
    rw [if_pos h]

/-- Witness for C5: principal 1000 at 12% over one year (12 monthly
payments), with the degenerate conjunct checked at principal 0. -/
theorem amortization_schedule_spec_witness :
    ((0:ℚ) < 1000 ∧ (0:ℚ) < 0.12 ∧ (1:ℤ) ≤ 1) ∧
    (((amortization_schedule 1000 0.12 1).length : ℤ) = 1 * 12) ∧
    ((0:ℚ) ≤ 0 ∨ (1:ℤ) ≤ 0) ∧
    amortization_schedule 0 0.12 1 = [] := by
  have h := (amortization_schedule_spec 1000 0.12 1).1
    (by norm_num) (by norm_num) (le_refl 1)
  have h2 := (amortization_schedule_spec 0 0.12 1).2 (Or.inl (le_refl 0))
  exact ⟨⟨by norm_num, by norm_num, le_refl 1⟩, h.1, Or.inl (le_refl 0), h2⟩

end RealEstate
